import Mathlib

/-!
Shallow embedding of `src/lib/stack-auth.ts` (StackTokenStorage and
StackAuthClient) from the StackAuth React Native Expo template.

Modelling conventions:
* An async TypeScript method is embedded as `M α := World → Except String α × World`:
  a state-passing function that either resolves (`Except.ok`) or rejects
  (`Except.error msg`, carrying the JS `Error` message).  State mutations made
  before a rejection persist, matching real AsyncStorage / fetch behaviour.
* `World` carries the AsyncStorage contents (an association list), a queue of
  scripted network outcomes consumed by `fetch` in order, a queue of random
  byte strings consumed by `Crypto.getRandomBytes`, a trace (`log`) of every
  HTTP request issued, a discrete millisecond clock advanced by each network
  call's duration, and a fault model for the storage layer.
* JS truthiness on optional strings (`if (token)`) is `jsTruthy`:
  `undefined`/`null`/`""` are falsy.
* `response.json()` is modelled as total, returning the structured `Body`
  already attached to the scripted `Response`.
* The SHA-256 digest (external library `expo-crypto`) is abstracted as a
  function parameter `sha : String → List Nat` producing the digest bytes.
-/

namespace StackAuth

/-- JS truthiness of a possibly-undefined string: `undefined`, `null` and the
empty string are falsy. -/
def jsTruthy : Option String → Bool
  | none => false
  | some s => s != ""

/-- JS `a || b` on a possibly-undefined string with a string default. -/
def jsOr (o : Option String) (d : String) : String :=
  if jsTruthy o then o.getD "" else d

/-- The standard base64 alphabet, as used by `btoa` and by `expo-crypto`'s
BASE64 output encoding. -/
def b64Alphabet : List Char :=
  "ABCDEFGHIJKLMNOPQRSTUVWXYZabcdefghijklmnopqrstuvwxyz0123456789+/".toList

/-- The URL-safe base64 alphabet (RFC 4648 §5). -/
def b64UrlAlphabet : List Char :=
  "ABCDEFGHIJKLMNOPQRSTUVWXYZabcdefghijklmnopqrstuvwxyz0123456789-_".toList

/-- Character of the standard base64 alphabet for a sextet value. -/
def b64Char (i : Nat) : Char := b64Alphabet.getD (i % 64) 'A'

/-- Character of the URL-safe base64 alphabet for a sextet value. -/
def b64UrlChar (i : Nat) : Char := b64UrlAlphabet.getD (i % 64) 'A'

/-- Standard base64 encoding of a byte list, with `=` padding — the encoding
performed by `btoa(String.fromCharCode(...bytes))` and by
`Crypto.digestStringAsync(..., { encoding: BASE64 })`. -/
def b64Encode : List Nat → List Char
  | [] => []
  | [a] => [b64Char (a / 4), b64Char (a % 4 * 16), '=', '=']
  | [a, b] => [b64Char (a / 4), b64Char (a % 4 * 16 + b / 16), b64Char (b % 16 * 4), '=']
  | a :: b :: c :: rest =>
      b64Char (a / 4) :: b64Char (a % 4 * 16 + b / 16) ::
      b64Char (b % 16 * 4 + c / 64) :: b64Char (c % 64) :: b64Encode rest

/-- URL-safe base64 encoding with no padding, written directly from the spec's
words ("URL-safe base64 ... padding stripped"), independently of the
replace/strip transformation the source applies to standard base64. -/
def b64UrlEncodeNoPad : List Nat → List Char
  | [] => []
  | [a] => [b64UrlChar (a / 4), b64UrlChar (a % 4 * 16)]
  | [a, b] => [b64UrlChar (a / 4), b64UrlChar (a % 4 * 16 + b / 16), b64UrlChar (b % 16 * 4)]
  | a :: b :: c :: rest =>
      b64UrlChar (a / 4) :: b64UrlChar (a % 4 * 16 + b / 16) ::
      b64UrlChar (b % 16 * 4 + c / 64) :: b64UrlChar (c % 64) :: b64UrlEncodeNoPad rest

/-- `btoa(String.fromCharCode.apply(null, Array.from(bytes)))`. -/
def btoaBytes (bs : List Nat) : String := String.mk (b64Encode bs)

/-- JS `String.prototype.replace` with a global single-character regex:
a character map. -/
def sRepl (c d : Char) (s : String) : String :=
  String.mk (s.toList.map (fun x => if x = c then d else x))

/-- JS `.replace(/=/g, '')`: drop every occurrence of a character. -/
def sStrip (c : Char) (s : String) : String :=
  String.mk (s.toList.filter (fun x => x != c))

/-- The `.replace(/\+/g, '-').replace(/\//g, '_').replace(/=/g, '')` chain the
source applies to every base64 output. -/
def b64ToUrlSafe (s : String) : String :=
  sStrip '=' (sRepl '/' '_' (sRepl '+' '-' s))

/-- URL-safe base64 with no padding as a string, the spec-side description of
the code challenge ("the URL-safe base64 encoding of SHA-256(code_verifier)
... all padding stripped"). -/
def base64UrlNoPad (bs : List Nat) : String := String.mk (b64UrlEncodeNoPad bs)

/-- Fault model for the AsyncStorage layer: keys whose reads fail, keys whose
writes fail, and whether `multiRemove` fails. -/
structure StorageBehavior where
  getFailKeys : List String
  setFailKeys : List String
  removeFails : Bool
deriving DecidableEq

/-- The storage behaviour in which every operation succeeds. -/
def StorageBehavior.reliable : StorageBehavior := ⟨[], [], false⟩

/-- Structured view of a JSON response body: every field the client reads,
each possibly absent. -/
structure Body where
  access_token : Option String := none
  refresh_token : Option String := none
  user_id : Option String := none
  id : Option String := none
  primary_email : Option String := none
  display_name : Option String := none
  profile_image_url : Option String := none
  message : Option String := none
  error : Option String := none
deriving DecidableEq

/-- An HTTP response: status code and parsed JSON body. -/
structure Response where
  status : Nat
  body : Body := {}
deriving DecidableEq

/-- `response.ok`: status in the inclusive-exclusive range 200–299. -/
def Response.isOk (r : Response) : Bool := 200 ≤ r.status && r.status < 300

/-- An HTTP request as issued by `fetch`. -/
structure Request where
  url : String
  method : String
  headers : List (String × String)
  body : Option String
deriving DecidableEq

/-- Outcome scripted for one `fetch` call. -/
inductive FetchOutcome where
  | success (r : Response)
  | netError
deriving DecidableEq

/-- One scripted network event: the outcome and how many milliseconds the call
takes to settle. -/
structure NetEvent where
  outcome : FetchOutcome
  durMs : Nat
deriving DecidableEq

/-- The world state threaded through every embedded operation. -/
structure World where
  store : List (String × String)
  net : List NetEvent
  rand : List (List Nat)
  log : List Request
  clock : Nat
  sb : StorageBehavior
deriving DecidableEq

/-- Association-list lookup (first binding wins), used for both the storage
contents and header/parameter records. -/
def recGet : List (String × String) → String → Option String
  | [], _ => none
  | (k, v) :: rest, key => if k = key then some v else recGet rest key

/-- JS object-property / storage-key assignment: update the existing binding
in place (bindings are unique), else append. -/
def recSet : List (String × String) → String → String → List (String × String)
  | [], k, v => [(k, v)]
  | p :: rest, k, v => if p.1 = k then (k, v) :: rest else p :: recSet rest k v

/-- JS object spread `{...base, ...extra}` restricted to what the client
observes: each binding of `extra` overrides `base`. -/
def recMerge (base extra : List (String × String)) : List (String × String) :=
  extra.foldl (fun acc p => recSet acc p.1 p.2) base

/-- Remove one key from the store. -/
def recRemove (r : List (String × String)) (k : String) : List (String × String) :=
  r.filter (fun p => p.1 != k)

/-- The embedding monad: explicit world passing with JS-style rejection.
State mutations made before a rejection persist. -/
def M (α : Type) : Type := World → Except String α × World

/-- Resolve with a value. -/
def M.pure (a : α) : M α := fun w => (Except.ok a, w)

/-- Sequencing: a rejection short-circuits but keeps the world reached so far. -/
def M.bind (m : M α) (f : α → M β) : M β := fun w =>
  match m w with
  | (Except.ok a, w') => f a w'
  | (Except.error e, w') => (Except.error e, w')

instance : Monad M where
  pure := M.pure
  bind := M.bind

/-- JS `throw new Error(msg)`. -/
def M.throw (msg : String) : M α := fun w => (Except.error msg, w)

/-- JS `try { m } catch { h }`: the handler runs from the world at the point of
the rejection. -/
def M.tryCatch (m : M α) (h : M α) : M α := fun w =>
  match m w with
  | (Except.error _, w') => h w'
  | r => r

namespace AsyncStorage

/-- `AsyncStorage.getItem`: reads the stored string or `null`; rejects when the
storage layer fails on this key. -/
def getItem (k : String) : M (Option String) := fun w =>
  if k ∈ w.sb.getFailKeys then (Except.error "storage failure", w)
  else (Except.ok (recGet w.store k), w)

/-- `AsyncStorage.setItem`: stores the string; rejects when the storage layer
fails on this key. -/
def setItem (k v : String) : M Unit := fun w =>
  if k ∈ w.sb.setFailKeys then (Except.error "storage failure", w)
  else (Except.ok (), { w with store := recSet w.store k v })

/-- `AsyncStorage.multiRemove`: removes every listed key; rejects when the
storage layer fails. -/
def multiRemove (ks : List String) : M Unit := fun w =>
  if w.sb.removeFails then (Except.error "storage failure", w)
  else (Except.ok (), { w with store := ks.foldl recRemove w.store })

end AsyncStorage

namespace StackTokenStorage

def ACCESS_TOKEN_KEY : String := "@stack_auth_access_token"

def REFRESH_TOKEN_KEY : String := "@stack_auth_refresh_token"

/-- `StackTokenStorage.getAccessToken`: catch returns `null`. -/
def getAccessToken : M (Option String) :=
  M.tryCatch (AsyncStorage.getItem ACCESS_TOKEN_KEY) (M.pure none)

/-- `StackTokenStorage.setAccessToken`.  The TS signature takes `string`, but
callers can pass `undefined` (e.g. `data.access_token` straight from a JSON
body); `AsyncStorage.setItem` rejects on a non-string value and the catch
swallows it, so the embedding takes `Option String`. -/
def setAccessToken (token : Option String) : M Unit :=
  M.tryCatch
    (match token with
     | some t => AsyncStorage.setItem ACCESS_TOKEN_KEY t
     | none => M.throw "value must be a string")
    (M.pure ())

/-- `StackTokenStorage.getRefreshToken`: catch returns `null`. -/
def getRefreshToken : M (Option String) :=
  M.tryCatch (AsyncStorage.getItem REFRESH_TOKEN_KEY) (M.pure none)

/-- `StackTokenStorage.setRefreshToken`; see `setAccessToken` for the
`Option String` argument. -/
def setRefreshToken (token : Option String) : M Unit :=
  M.tryCatch
    (match token with
     | some t => AsyncStorage.setItem REFRESH_TOKEN_KEY t
     | none => M.throw "value must be a string")
    (M.pure ())

/-- `StackTokenStorage.clearTokens`: `multiRemove` of both keys, catch
swallows. -/
def clearTokens : M Unit :=
  M.tryCatch (AsyncStorage.multiRemove [ACCESS_TOKEN_KEY, REFRESH_TOKEN_KEY]) (M.pure ())

end StackTokenStorage

/-- Client configuration, read from the environment in the source constructor. -/
structure Config where
  baseUrl : String
  projectId : String
  publishableClientKey : String
  serverSecretKey : String
  oauthRedirectUri : String
deriving DecidableEq

/-- The options object passed to `makeRequest` / `fetch` (`RequestInit`). -/
structure RequestInit where
  method : String := "GET"
  headers : List (String × String) := []
  body : Option String := none
deriving DecidableEq

/-- `JSON.stringify` of a flat object with string-valued fields. -/
def jsonStringify (fields : List (String × String)) : String :=
  "\x7b" ++ String.intercalate "," (fields.map (fun p => "\"" ++ p.1 ++ "\":\"" ++ p.2 ++ "\"")) ++ "\x7d"

/-- Global `fetch`: consumes the next scripted network event, records the
request in the trace, advances the clock by the event's duration, and either
resolves with the response or rejects. An exhausted script rejects. -/
def fetch (req : Request) : M Response := fun w =>
  match w.net with
  | [] => (Except.error "Network request failed", { w with log := w.log ++ [req] })
  | e :: rest =>
    let w' := { w with net := rest, log := w.log ++ [req], clock := w.clock + e.durMs }
    match e.outcome with
    | FetchOutcome.success r => (Except.ok r, w')
    | FetchOutcome.netError => (Except.error "Network request failed", w')

/-- `Promise.race([m, reject-after-ms-timer])`, modelled on the discrete
clock: if the racing operation settles after more than `ms` milliseconds, the
timer has already fired and the race rejects with the timeout error. -/
def raceTimeout (ms : Nat) (m : M Response) : M Response := fun w =>
  match m w with
  | (res, w') =>
    if w'.clock - w.clock > ms then (Except.error "Request timeout after 30 seconds", w')
    else (res, w')

namespace Crypto

/-- `Crypto.getRandomBytes`: consumes the next scripted random byte string. -/
def getRandomBytes (n : Nat) : M (List Nat) := fun w =>
  match w.rand with
  | [] => (Except.ok (List.replicate n 0), w)
  | bs :: rest => (Except.ok bs, { w with rand := rest })

end Crypto

namespace StackAuthClient

/-- The header object built at the top of `makeRequest`: base headers, spread
of `options.headers`, then the access token header when a token is stored. -/
def pipelineHeaders (cfg : Config) (options : RequestInit) (accessToken : Option String) :
    List (String × String) :=
  let headers := recMerge
    [("Content-Type", "application/json"),
     ("X-Stack-Access-Type", "client"),
     ("X-Stack-Project-Id", cfg.projectId),
     ("X-Stack-Publishable-Client-Key", cfg.publishableClientKey)]
    options.headers
  if jsTruthy accessToken then recSet headers "X-Stack-Access-Token" (accessToken.getD "")
  else headers

/-- The fixed refresh request issued by `refreshAccessToken`. -/
def refreshRequest (cfg : Config) (refreshToken : String) : Request :=
  ⟨cfg.baseUrl ++ "/auth/sessions/current/refresh", "POST",
   [("Content-Type", "application/json"),
    ("X-Stack-Access-Type", "client"),
    ("X-Stack-Project-Id", cfg.projectId),
    ("X-Stack-Publishable-Client-Key", cfg.publishableClientKey),
    ("X-Stack-Refresh-Token", refreshToken)], none⟩

/-- `StackAuthClient.refreshAccessToken`: returns false when no refresh token
is stored, POSTs to the fixed refresh endpoint with the refresh token in its
dedicated header, persists the new access token on a 2xx response, and
swallows any rejection into `false`. -/
def refreshAccessToken (cfg : Config) : M Bool :=
  M.tryCatch
    (do
      let refreshToken ← StackTokenStorage.getRefreshToken
      if !jsTruthy refreshToken then
        M.pure false
      else do
        let response ← fetch (refreshRequest cfg (refreshToken.getD ""))
        if response.isOk then do
          let data := response.body
          StackTokenStorage.setAccessToken data.access_token
          M.pure true
        else
          M.pure false)
    (M.pure false)

/-- `StackAuthClient.makeRequest`: build headers, fetch
`baseUrl ++ endpoint` (literal concatenation), and on a 401 attempt one
refresh followed by at most one retry with the re-read token. -/
def makeRequest (cfg : Config) (endpoint : String) (options : RequestInit) : M Response := do
  let accessToken ← StackTokenStorage.getAccessToken
  let headers := pipelineHeaders cfg options accessToken
  let response ← fetch ⟨cfg.baseUrl ++ endpoint, options.method, headers, options.body⟩
  if response.status = 401 then do
    let refreshed ← refreshAccessToken cfg
    if refreshed then do
      let newAccessToken ← StackTokenStorage.getAccessToken
      if jsTruthy newAccessToken then
        fetch ⟨cfg.baseUrl ++ endpoint, options.method,
               recSet headers "X-Stack-Access-Token" (newAccessToken.getD ""), options.body⟩
      else
        M.pure response
    else
      M.pure response
  else
    M.pure response

/-- Result shape of `signInWithPassword`. -/
structure SignInResult where
  success : Bool
  error : Option String := none
  user_id : Option String := none
deriving DecidableEq

/-- `StackAuthClient.signInWithPassword`. -/
def signInWithPassword (cfg : Config) (email password : String) : M SignInResult :=
  M.tryCatch
    (do
      let response ← makeRequest cfg "auth/password/sign-in"
        { method := "POST", body := some (jsonStringify [("email", email), ("password", password)]) }
      if response.isOk then do
        let data := response.body
        if jsTruthy data.access_token then StackTokenStorage.setAccessToken data.access_token
        else M.pure ()
        if jsTruthy data.refresh_token then StackTokenStorage.setRefreshToken data.refresh_token
        else M.pure ()
        M.pure ⟨true, none, data.user_id⟩
      else
        M.pure ⟨false, some (jsOr response.body.message "Sign in failed"), none⟩)
    (M.pure ⟨false, some "Network error", none⟩)

/-- `StackAuthClient.generateCodeVerifier`: 32 random bytes, `btoa`, then the
URL-safe replace/strip chain. -/
def generateCodeVerifier : M String := do
  let randomBytes ← Crypto.getRandomBytes 32
  M.pure (b64ToUrlSafe (btoaBytes randomBytes))

/-- `StackAuthClient.generateCodeChallenge`: SHA-256 digest of the verifier in
base64 (via `expo-crypto`, abstracted as `sha` giving the digest bytes), then
the URL-safe replace/strip chain. -/
def generateCodeChallenge (sha : String → List Nat) (verifier : String) : String :=
  b64ToUrlSafe (btoaBytes (sha verifier))

/-- `StackAuthClient.generateState`: 16 random bytes, `btoa`, then the
URL-safe replace/strip chain. -/
def generateState : M String := do
  let randomBytes ← Crypto.getRandomBytes 16
  M.pure (b64ToUrlSafe (btoaBytes randomBytes))

/-- The `URLSearchParams` constructed by `signInWithOAuth`, in source order. -/
def oauthAuthParams (cfg : Config) (redirectUri state codeChallenge : String) :
    List (String × String) :=
  [("client_id", cfg.projectId),
   ("client_secret", cfg.publishableClientKey),
   ("redirect_uri", redirectUri),
   ("scope", "legacy"),
   ("state", state),
   ("grant_type", "authorization_code"),
   ("code_challenge", codeChallenge),
   ("code_challenge_method", "S256"),
   ("response_type", "code"),
   ("type", "authenticate"),
   ("error_redirect_url", redirectUri)]

/-- Hex digit for `%`-encoding. -/
def hexDigit (n : Nat) : Char := "0123456789ABCDEF".toList.getD (n % 16) '0'

/-- UTF-8 bytes of one character. -/
def utf8Bytes (c : Char) : List Nat :=
  let n := c.toNat
  if n < 128 then [n]
  else if n < 2048 then [192 + n / 64, 128 + n % 64]
  else if n < 65536 then [224 + n / 4096, 128 + n / 64 % 64, 128 + n % 64]
  else [240 + n / 262144, 128 + n / 4096 % 64, 128 + n / 64 % 64, 128 + n % 64]

/-- Characters `URLSearchParams` serialization leaves unencoded
(`application/x-www-form-urlencoded`): ASCII alphanumerics and `*-._`. -/
def formUnreserved (c : Char) : Bool :=
  let n := c.toNat
  (decide (65 ≤ n) && decide (n ≤ 90)) || (decide (97 ≤ n) && decide (n ≤ 122)) ||
  (decide (48 ≤ n) && decide (n ≤ 57)) || n == 42 || n == 45 || n == 46 || n == 95

/-- `%XX` encoding of one byte. -/
def percentByte (b : Nat) : List Char := ['%', hexDigit (b / 16), hexDigit b]

/-- Percent-encoding of one character for `URLSearchParams.toString`. -/
def formEncodeChar (c : Char) : List Char :=
  if formUnreserved c then [c]
  else if c = ' ' then ['+']
  else (utf8Bytes c).foldr (fun b acc => percentByte b ++ acc) []

/-- `application/x-www-form-urlencoded` percent-encoding of a string. -/
def formEncode (s : String) : String :=
  String.mk (s.toList.foldr (fun c acc => formEncodeChar c ++ acc) [])

/-- `URLSearchParams.toString()`. -/
def urlParamsToString (ps : List (String × String)) : String :=
  String.intercalate "&" (ps.map (fun p => formEncode p.1 ++ "=" ++ formEncode p.2))

/-- Result shape of `signInWithOAuth`. -/
structure OAuthInitResult where
  success : Bool
  authUrl : Option String := none
  error : Option String := none
deriving DecidableEq

/-- `StackAuthClient.signInWithOAuth`: generate PKCE verifier/challenge and
state, persist verifier and state, and return the provider authorization URL. -/
def signInWithOAuth (cfg : Config) (sha : String → List Nat) (provider : String)
    (redirectUri : String) : M OAuthInitResult :=
  M.tryCatch
    (do
      let codeVerifier ← generateCodeVerifier
      let codeChallenge := generateCodeChallenge sha codeVerifier
      let state ← generateState
      AsyncStorage.setItem "@oauth_code_verifier" codeVerifier
      AsyncStorage.setItem "@oauth_state" state
      let params := oauthAuthParams cfg redirectUri state codeChallenge
      let authUrl := cfg.baseUrl ++ "/auth/oauth/authorize/" ++ provider ++ "?" ++
        urlParamsToString params
      M.pure ⟨true, some authUrl, none⟩)
    (M.pure ⟨false, none, some "Failed to initiate OAuth flow"⟩)

/-- Result shape of `handleOAuthCallback`. -/
structure AuthResult where
  success : Bool
  error : Option String := none
deriving DecidableEq

/-- `StackAuthClient.handleOAuthCallback`: verify the state parameter against
the stored one, require a stored code verifier, exchange the code at the token
endpoint under a 30-second race, persist returned tokens, and clean up the
stored PKCE parameters on success only. -/
def handleOAuthCallback (cfg : Config) (code state : String) : M AuthResult :=
  M.tryCatch
    (do
      let storedState ← AsyncStorage.getItem "@oauth_state"
      if storedState ≠ some state then
        M.pure ⟨false, some "Invalid state parameter"⟩
      else do
        let codeVerifier ← AsyncStorage.getItem "@oauth_code_verifier"
        if !jsTruthy codeVerifier then
          M.pure ⟨false, some "Missing code verifier"⟩
        else do
          let requestBody := jsonStringify
            [("grant_type", "authorization_code"),
             ("code", code),
             ("code_verifier", codeVerifier.getD ""),
             ("client_id", cfg.projectId),
             ("client_secret", cfg.publishableClientKey),
             ("redirect_uri", cfg.oauthRedirectUri)]
          let response ← raceTimeout 30000
            (makeRequest cfg "auth/oauth/token" { method := "POST", body := some requestBody })
          if response.isOk then do
            let data := response.body
            if jsTruthy data.access_token then StackTokenStorage.setAccessToken data.access_token
            else M.pure ()
            if jsTruthy data.refresh_token then StackTokenStorage.setRefreshToken data.refresh_token
            else M.pure ()
            AsyncStorage.multiRemove ["@oauth_code_verifier", "@oauth_state"]
            M.pure ⟨true, none⟩
          else
            M.pure ⟨false, some (jsOr response.body.message "OAuth token exchange failed")⟩)
    (M.pure ⟨false, some "OAuth callback handling failed"⟩)

/-- Characters of a string before the first occurrence of a separator. -/
def takeUntilChar : List Char → Char → List Char
  | [], _ => []
  | c :: rest, sep => if c = sep then [] else c :: takeUntilChar rest sep

/-- JS `e.split('@')[0]`: the portion of the string before the first `@`
(the whole string when there is none). -/
def emailLocalPart (e : String) : String := String.mk (takeUntilChar e.toList '@')

/-- The mapped user object returned by `getCurrentUser` / `getUserById`. -/
structure User where
  id : Option String
  email : Option String
  displayName : Option String
  profile_image_url : Option String
deriving DecidableEq

/-- The mapping from an API user body to the client's `User` shape, including
the JS `display_name || primary_email?.split('@')[0]` fallback. -/
def mapUser (apiData : Body) : User :=
  ⟨apiData.id, apiData.primary_email,
   (if jsTruthy apiData.display_name then apiData.display_name
    else apiData.primary_email.map emailLocalPart),
   apiData.profile_image_url⟩

/-- `StackAuthClient.getCurrentUser`: GET `users/me` and map the body; any
failure or rejection returns `null`. -/
def getCurrentUser (cfg : Config) : M (Option User) :=
  M.tryCatch
    (do
      let response ← makeRequest cfg "users/me" {}
      if response.isOk then
        M.pure (some (mapUser response.body))
      else
        M.pure none)
    (M.pure none)

/-- Result shape of `getUserById`. -/
structure UserResult where
  success : Bool
  user : Option User := none
  error : Option String := none
deriving DecidableEq

/-- `StackAuthClient.getUserById`: GET `/users/` ++ userId (leading slash at
this call site) and map the body. -/
def getUserById (cfg : Config) (userId : String) : M UserResult :=
  M.tryCatch
    (do
      let response ← makeRequest cfg ("/users/" ++ userId) {}
      if response.isOk then
        M.pure ⟨true, some (mapUser response.body), none⟩
      else
        M.pure ⟨false, none, some (jsOr response.body.error "Failed to fetch user")⟩)
    (M.pure ⟨false, none, some "Network error while fetching user"⟩)

/-- `StackAuthClient.signOut`: DELETE the current session (errors swallowed),
then — in the `finally` block — clear both stored tokens. -/
def signOut (cfg : Config) : M Unit := do
  M.tryCatch
    (do
      let _ ← makeRequest cfg "auth/sessions/current" { method := "DELETE" }
      M.pure ())
    (M.pure ())
  StackTokenStorage.clearTokens

end StackAuthClient

/-! ## Derived views of a run, used to state the run lemmas -/

/-- What `StackTokenStorage.getAccessToken` observes in a world: `none` when
the read fails, else the stored value. -/
def storedAccessToken (w : World) : Option String :=
  if StackTokenStorage.ACCESS_TOKEN_KEY ∈ w.sb.getFailKeys then none
  else recGet w.store StackTokenStorage.ACCESS_TOKEN_KEY

/-- What `StackTokenStorage.getRefreshToken` observes in a world. -/
def storedRefreshToken (w : World) : Option String :=
  if StackTokenStorage.REFRESH_TOKEN_KEY ∈ w.sb.getFailKeys then none
  else recGet w.store StackTokenStorage.REFRESH_TOKEN_KEY

/-- The first request `makeRequest` issues for an endpoint. -/
def firstRequest (cfg : Config) (e : String) (o : RequestInit) (w : World) : Request :=
  ⟨cfg.baseUrl ++ e, o.method, StackAuthClient.pipelineHeaders cfg o (storedAccessToken w),
   o.body⟩

/-- The world after one `fetch` consumed an event of duration `d`, leaving
`rest` scripted. -/
def afterFetch (w : World) (req : Request) (rest : List NetEvent) (d : Nat) : World :=
  { w with net := rest, log := w.log ++ [req], clock := w.clock + d }

/-- The retried request after a successful refresh: the original header object
mutated with the re-read access token. -/
def retryRequest (cfg : Config) (e : String) (o : RequestInit) (tok1 : Option String)
    (tok2 : String) : Request :=
  ⟨cfg.baseUrl ++ e, o.method,
   recSet (StackAuthClient.pipelineHeaders cfg o tok1) "X-Stack-Access-Token" tok2, o.body⟩

/-! ## Concrete fixtures used by counterexamples and witnesses -/

/-- A concrete configuration. -/
def cfg0 : Config :=
  ⟨"https://api.stack-auth.com", "proj-1", "pck-1", "ssk-1", "https://app.example/cb"⟩

/-- A world holding a pending OAuth transaction (stored state "A" and a stored
code verifier), reliable storage, and no scripted network traffic. -/
def wMismatch : World :=
  ⟨[("@oauth_state", "A"), ("@oauth_code_verifier", "V")], [], [], [], 0,
   StorageBehavior.reliable⟩

/-- A world with both tokens stored whose next network call fails with a
network error, used to witness sign-out. -/
def wSignOut : World :=
  ⟨[("@stack_auth_access_token", "at-1"), ("@stack_auth_refresh_token", "rt-1")],
   [⟨FetchOutcome.netError, 10⟩], [], [], 0, StorageBehavior.reliable⟩

/-- A world whose storage layer fails on every operation: both token keys fail
to read and to write, and removal fails. -/
def wStorageFail : World :=
  ⟨[("@stack_auth_access_token", "secret")], [], [], [], 0,
   ⟨["@stack_auth_access_token", "@stack_auth_refresh_token"],
    ["@stack_auth_access_token", "@stack_auth_refresh_token"], true⟩⟩

/-- A 401 response. -/
def r401 : Response := ⟨401, {}⟩

/-- A successful refresh response carrying a new access token. -/
def rRefreshOk : Response := ⟨200, { access_token := some "new-at" }⟩

/-- A successful final response. -/
def rFinal : Response := ⟨200, {}⟩

/-- A world with a stored refresh token whose script is: 401, then a
successful refresh, then a successful retry. -/
def wC2 : World :=
  ⟨[("@stack_auth_refresh_token", "rt-1")],
   [⟨FetchOutcome.success r401, 5⟩, ⟨FetchOutcome.success rRefreshOk, 5⟩,
    ⟨FetchOutcome.success rFinal, 5⟩], [], [], 0, StorageBehavior.reliable⟩

/-- A failed (400) response. -/
def r400 : Response := ⟨400, {}⟩

/-- A world with empty storage whose next call is answered 400. -/
def wC10 : World := ⟨[], [⟨FetchOutcome.success r400, 1⟩], [], [], 0, StorageBehavior.reliable⟩

/-- The display-name mapping as the (amended) claim words it: the provider's
`display_name`, falling back to the portion of `primary_email` before the
first `@` when `display_name` is absent or empty. -/
def displayNameSpec (b : Body) : Option String :=
  match b.display_name with
  | some dn => if dn ≠ "" then some dn else b.primary_email.map StackAuthClient.emailLocalPart
  | none => b.primary_email.map StackAuthClient.emailLocalPart

/-- A successful `users/me` response whose `display_name` is present but
empty. -/
def rC9 : Response :=
  ⟨200, { id := some "u1", primary_email := some "ada@example.com",
          display_name := some "", profile_image_url := none }⟩

/-- A signed-in world (access token stored) whose next call is answered by
`rC9`. -/
def wC9 : World :=
  ⟨[("@stack_auth_access_token", "at-1")], [⟨FetchOutcome.success rC9, 1⟩], [], [], 0,
   StorageBehavior.reliable⟩

/-- A stand-in SHA-256 digest function for concrete witnesses. -/
def shaDemo : String → List Nat := fun _ => List.replicate 32 171

/-- Concrete 32 random bytes for a code verifier. -/
def vbDemo : List Nat := List.replicate 32 7

/-- Concrete 16 random bytes for a state value. -/
def sbDemo : List Nat := List.replicate 16 250

/-- A fresh world scripted with the two random draws of an OAuth initiation. -/
def wC7 : World := ⟨[], [], [vbDemo, sbDemo], [], 0, StorageBehavior.reliable⟩

/-- A world holding a matching pending OAuth transaction whose token-exchange
call takes 30001 ms to come back (successfully). -/
def wC6 : World :=
  ⟨[("@oauth_state", "A"), ("@oauth_code_verifier", "V")],
   [⟨FetchOutcome.success rFinal, 30001⟩], [], [], 0, StorageBehavior.reliable⟩

/-! ## Run lemmas for the embedding monad and the storage layer -/

theorem M.bind_def (m : M α) (f : α → M β) : m >>= f = M.bind m f := rfl

theorem M.pure_def (a : α) : (pure a : M α) = M.pure a := rfl

theorem StackTokenStorage.getAccessToken_run (w : World) :
    StackTokenStorage.getAccessToken w =
      (Except.ok (if StackTokenStorage.ACCESS_TOKEN_KEY ∈ w.sb.getFailKeys then none
                  else recGet w.store StackTokenStorage.ACCESS_TOKEN_KEY), w) := by
  unfold StackTokenStorage.getAccessToken M.tryCatch AsyncStorage.getItem M.pure
  by_cases h : StackTokenStorage.ACCESS_TOKEN_KEY ∈ w.sb.getFailKeys <;> simp [h]

theorem StackTokenStorage.getRefreshToken_run (w : World) :
    StackTokenStorage.getRefreshToken w =
      (Except.ok (if StackTokenStorage.REFRESH_TOKEN_KEY ∈ w.sb.getFailKeys then none
                  else recGet w.store StackTokenStorage.REFRESH_TOKEN_KEY), w) := by
  unfold StackTokenStorage.getRefreshToken M.tryCatch AsyncStorage.getItem M.pure
  by_cases h : StackTokenStorage.REFRESH_TOKEN_KEY ∈ w.sb.getFailKeys <;> simp [h]

theorem StackTokenStorage.setAccessToken_run (tok : Option String) (w : World) :
    StackTokenStorage.setAccessToken tok w =
      (Except.ok (),
        match tok with
        | none => w
        | some t =>
          if StackTokenStorage.ACCESS_TOKEN_KEY ∈ w.sb.setFailKeys then w
          else { w with store := recSet w.store StackTokenStorage.ACCESS_TOKEN_KEY t }) := by
  unfold StackTokenStorage.setAccessToken M.tryCatch AsyncStorage.setItem M.pure M.throw
  cases tok with
  | none => simp
  | some t => by_cases h : StackTokenStorage.ACCESS_TOKEN_KEY ∈ w.sb.setFailKeys <;> simp [h]

theorem StackTokenStorage.setRefreshToken_run (tok : Option String) (w : World) :
    StackTokenStorage.setRefreshToken tok w =
      (Except.ok (),
        match tok with
        | none => w
        | some t =>
          if StackTokenStorage.REFRESH_TOKEN_KEY ∈ w.sb.setFailKeys then w
          else { w with store := recSet w.store StackTokenStorage.REFRESH_TOKEN_KEY t }) := by
  unfold StackTokenStorage.setRefreshToken M.tryCatch AsyncStorage.setItem M.pure M.throw
  cases tok with
  | none => simp
  | some t => by_cases h : StackTokenStorage.REFRESH_TOKEN_KEY ∈ w.sb.setFailKeys <;> simp [h]

theorem StackTokenStorage.clearTokens_run (w : World) :
    StackTokenStorage.clearTokens w =
      (Except.ok (),
        if w.sb.removeFails then w
        else { w with
               store := recRemove (recRemove w.store StackTokenStorage.ACCESS_TOKEN_KEY)
                          StackTokenStorage.REFRESH_TOKEN_KEY }) := by
  unfold StackTokenStorage.clearTokens M.tryCatch AsyncStorage.multiRemove M.pure
  by_cases h : w.sb.removeFails <;> simp [h, List.foldl]

/-- Closed form of one `refreshAccessToken` run: no (truthy) stored refresh
token yields `false` with the world unchanged; otherwise the fixed refresh
request is issued, and only a 2xx response yields `true`, persisting the
returned access token via the swallowing setter. -/
theorem refreshAccessToken_run (cfg : Config) (w : World) :
    StackAuthClient.refreshAccessToken cfg w =
      (let tok := if StackTokenStorage.REFRESH_TOKEN_KEY ∈ w.sb.getFailKeys then none
                  else recGet w.store StackTokenStorage.REFRESH_TOKEN_KEY
       if !jsTruthy tok then (Except.ok false, w)
       else
         match w.net with
         | [] =>
           (Except.ok false,
            { w with log := w.log ++ [StackAuthClient.refreshRequest cfg (tok.getD "")] })
         | e :: rest =>
           let w' := { w with
                       net := rest,
                       log := w.log ++ [StackAuthClient.refreshRequest cfg (tok.getD "")],
                       clock := w.clock + e.durMs }
           match e.outcome with
           | FetchOutcome.netError => (Except.ok false, w')
           | FetchOutcome.success r =>
             if r.isOk then
               (Except.ok true,
                match r.body.access_token with
                | none => w'
                | some t =>
                  if StackTokenStorage.ACCESS_TOKEN_KEY ∈ w.sb.setFailKeys then w'
                  else { w' with store := recSet w'.store StackTokenStorage.ACCESS_TOKEN_KEY t })
             else (Except.ok false, w')) := by
  unfold StackAuthClient.refreshAccessToken
  simp only [M.bind_def, M.pure_def]
  unfold M.tryCatch M.bind M.pure fetch
  simp only [StackTokenStorage.getRefreshToken_run, StackTokenStorage.setAccessToken_run]
  by_cases htok : jsTruthy (if StackTokenStorage.REFRESH_TOKEN_KEY ∈ w.sb.getFailKeys then none
      else recGet w.store StackTokenStorage.REFRESH_TOKEN_KEY)
  · cases hnet : w.net with
    | nil => simp [htok, hnet]
    | cons e rest =>
      cases houtc : e.outcome with
      | netError => simp [htok, hnet, houtc]
      | success r =>
        by_cases hok : r.isOk
        · cases hat : r.body.access_token with
          | none => simp [htok, hnet, houtc, hok, hat]
          | some t =>
            by_cases hset : StackTokenStorage.ACCESS_TOKEN_KEY ∈ w.sb.setFailKeys <;>
              simp [htok, hnet, houtc, hok, hat, hset]
        · simp [htok, hnet, houtc, hok]
  · simp [htok]

theorem StackTokenStorage.getAccessToken_run' (w : World) :
    StackTokenStorage.getAccessToken w = (Except.ok (storedAccessToken w), w) :=
  StackTokenStorage.getAccessToken_run w

theorem StackTokenStorage.getRefreshToken_run' (w : World) :
    StackTokenStorage.getRefreshToken w = (Except.ok (storedRefreshToken w), w) :=
  StackTokenStorage.getRefreshToken_run w

/-! ## Run lemmas for the request pipeline -/

/-- `makeRequest` when the scripted network is exhausted: the request is still
issued (logged) and the call rejects. -/
theorem makeRequest_run_noNet (cfg : Config) (e : String) (o : RequestInit) (w : World)
    (hnet : w.net = []) :
    StackAuthClient.makeRequest cfg e o w =
      (Except.error "Network request failed",
       { w with log := w.log ++ [firstRequest cfg e o w] }) := by
  unfold StackAuthClient.makeRequest
  simp only [M.bind_def, M.pure_def]
  unfold M.bind M.pure fetch
  simp [StackTokenStorage.getAccessToken_run', hnet, firstRequest]

/-- `makeRequest` when the first fetch rejects with a network error. -/
theorem makeRequest_run_netError (cfg : Config) (e : String) (o : RequestInit) (w : World)
    (d : Nat) (rest : List NetEvent)
    (hnet : w.net = ⟨FetchOutcome.netError, d⟩ :: rest) :
    StackAuthClient.makeRequest cfg e o w =
      (Except.error "Network request failed",
       afterFetch w (firstRequest cfg e o w) rest d) := by
  unfold StackAuthClient.makeRequest
  simp only [M.bind_def, M.pure_def]
  unfold M.bind M.pure fetch
  simp [StackTokenStorage.getAccessToken_run', hnet, firstRequest, afterFetch]

/-- `makeRequest` on a non-401 response: exactly one request is issued and the
response is returned as-is. -/
theorem makeRequest_run_ok (cfg : Config) (e : String) (o : RequestInit) (w : World)
    (r : Response) (d : Nat) (rest : List NetEvent)
    (hnet : w.net = ⟨FetchOutcome.success r, d⟩ :: rest) (hst : r.status ≠ 401) :
    StackAuthClient.makeRequest cfg e o w =
      (Except.ok r, afterFetch w (firstRequest cfg e o w) rest d) := by
  unfold StackAuthClient.makeRequest
  simp only [M.bind_def, M.pure_def]
  unfold M.bind M.pure fetch
  simp [StackTokenStorage.getAccessToken_run', hnet, hst, firstRequest, afterFetch]

/-- `makeRequest` on a 401 response, parameterized by the outcome of the one
refresh attempt: on refresh failure the original 401 response is returned
unchanged; on refresh success the original call is retried once with the
re-read token (or the original response returned if no token can be read). -/
theorem makeRequest_run_401 (cfg : Config) (e : String) (o : RequestInit) (w : World)
    (r : Response) (d : Nat) (rest : List NetEvent) (b : Bool) (w2 : World)
    (hnet : w.net = ⟨FetchOutcome.success r, d⟩ :: rest) (hst : r.status = 401)
    (href : StackAuthClient.refreshAccessToken cfg
      (afterFetch w (firstRequest cfg e o w) rest d) = (Except.ok b, w2)) :
    StackAuthClient.makeRequest cfg e o w =
      (if b then
        (if jsTruthy (storedAccessToken w2) then
          fetch (retryRequest cfg e o (storedAccessToken w) ((storedAccessToken w2).getD "")) w2
        else (Except.ok r, w2))
      else (Except.ok r, w2)) := by
  unfold StackAuthClient.makeRequest
  simp only [M.bind_def, M.pure_def]
  unfold M.bind M.pure fetch
  simp only [StackTokenStorage.getAccessToken_run', hnet, hst]
  simp only [afterFetch, firstRequest] at href
  simp only [if_true]
  rw [href]
  cases b with
  | false => simp
  | true =>
    by_cases htr : jsTruthy (storedAccessToken w2)
    · simp [htr, retryRequest]
    · simp [htr]

/-- `fetch` either resolves or rejects, and never changes the storage fault
model. -/
theorem fetch_shape (req : Request) (w : World) :
    ∃ res w', fetch req w = (res, w') ∧ w'.sb = w.sb := by
  unfold fetch
  cases hnet : w.net with
  | nil => exact ⟨_, _, rfl, rfl⟩
  | cons ev rest =>
    cases ev with
    | mk outc dur =>
      cases outc with
      | success r => exact ⟨_, _, rfl, rfl⟩
      | netError => exact ⟨_, _, rfl, rfl⟩

/-- `refreshAccessToken` never rejects: the catch converts every rejection to
`false`. -/
theorem refreshAccessToken_no_reject (cfg : Config) (w : World) (msg : String) :
    (StackAuthClient.refreshAccessToken cfg w).1 ≠ Except.error msg := by
  rw [refreshAccessToken_run]
  by_cases htok : jsTruthy (if StackTokenStorage.REFRESH_TOKEN_KEY ∈ w.sb.getFailKeys then none
      else recGet w.store StackTokenStorage.REFRESH_TOKEN_KEY)
  · cases hnet : w.net with
    | nil => simp [htok, hnet]
    | cons ev rest =>
      cases ev with
      | mk outc dur =>
        cases outc with
        | netError => simp [htok, hnet]
        | success r =>
          by_cases hok : r.isOk
          · cases hat : r.body.access_token with
            | none => simp [htok, hnet, hok, hat]
            | some t =>
              by_cases hset : StackTokenStorage.ACCESS_TOKEN_KEY ∈ w.sb.setFailKeys <;>
                simp [htok, hnet, hok, hat, hset]
          · simp [htok, hnet, hok]
  · simp [htok]

/-- `refreshAccessToken` never changes the storage fault model. -/
theorem refreshAccessToken_sb (cfg : Config) (w : World) :
    (StackAuthClient.refreshAccessToken cfg w).2.sb = w.sb := by
  rw [refreshAccessToken_run]
  by_cases htok : jsTruthy (if StackTokenStorage.REFRESH_TOKEN_KEY ∈ w.sb.getFailKeys then none
      else recGet w.store StackTokenStorage.REFRESH_TOKEN_KEY)
  · cases hnet : w.net with
    | nil => simp [htok, hnet]
    | cons ev rest =>
      cases ev with
      | mk outc dur =>
        cases outc with
        | netError => simp [htok, hnet]
        | success r =>
          by_cases hok : r.isOk
          · cases hat : r.body.access_token with
            | none => simp [htok, hnet, hok, hat]
            | some t =>
              by_cases hset : StackTokenStorage.ACCESS_TOKEN_KEY ∈ w.sb.setFailKeys <;>
                simp [htok, hnet, hok, hat, hset]
          · simp [htok, hnet, hok]
  · simp [htok]

/-- `makeRequest` never changes the storage fault model. -/
theorem makeRequest_sb (cfg : Config) (e : String) (o : RequestInit) (w : World) :
    (StackAuthClient.makeRequest cfg e o w).2.sb = w.sb := by
  cases hnet : w.net with
  | nil => rw [makeRequest_run_noNet cfg e o w hnet]
  | cons ev rest =>
    cases ev with
    | mk outc dur =>
      cases outc with
      | netError =>
        rw [makeRequest_run_netError cfg e o w dur rest hnet]
        rfl
      | success r =>
        by_cases hst : r.status = 401
        · cases href1 : (StackAuthClient.refreshAccessToken cfg
            (afterFetch w (firstRequest cfg e o w) rest dur)).1 with
          | error msg => exact absurd href1 (refreshAccessToken_no_reject cfg _ msg)
          | ok b =>
            have href := (Prod.mk.eta (p := StackAuthClient.refreshAccessToken cfg
              (afterFetch w (firstRequest cfg e o w) rest dur))).symm
            rw [href1] at href
            have hsb2 : (StackAuthClient.refreshAccessToken cfg
                (afterFetch w (firstRequest cfg e o w) rest dur)).2.sb = w.sb := by
              rw [refreshAccessToken_sb]
              rfl
            rw [makeRequest_run_401 cfg e o w r dur rest b _ hnet hst href]
            cases b with
            | false => simpa using hsb2
            | true =>
              by_cases htr : jsTruthy (storedAccessToken
                (StackAuthClient.refreshAccessToken cfg
                  (afterFetch w (firstRequest cfg e o w) rest dur)).2)
              · obtain ⟨res3, w3, hf, hsb3⟩ := fetch_shape
                  (retryRequest cfg e o (storedAccessToken w)
                    ((storedAccessToken (StackAuthClient.refreshAccessToken cfg
                      (afterFetch w (firstRequest cfg e o w) rest dur)).2).getD ""))
                  (StackAuthClient.refreshAccessToken cfg
                    (afterFetch w (firstRequest cfg e o w) rest dur)).2
                simp only [htr, if_true, if_pos]
                rw [hf]
                exact hsb3.trans hsb2
              · simpa [htr] using hsb2
        · rw [makeRequest_run_ok cfg e o w r dur rest hnet hst]
          rfl

/-! ## Association-list lemmas -/

theorem recGet_recSet_self (s : List (String × String)) (k v : String) :
    recGet (recSet s k v) k = some v := by
  induction s with
  | nil => simp [recSet, recGet]
  | cons p rest ih =>
    unfold recSet
    by_cases hk : p.1 = k
    · simp [hk, recGet]
    · simpa [hk, recGet] using ih

theorem recGet_recSet_ne (s : List (String × String)) (k v k' : String) (hne : k' ≠ k) :
    recGet (recSet s k v) k' = recGet s k' := by
  induction s with
  | nil => simp [recSet, recGet, Ne.symm hne]
  | cons p rest ih =>
    unfold recSet
    by_cases hk : p.1 = k
    · simp [hk, recGet, Ne.symm hne]
    · rw [if_neg hk]
      unfold recGet
      by_cases hk' : p.1 = k'
      · simp [hk']
      · simpa [hk'] using ih

theorem recGet_recRemove (s : List (String × String)) (k k' : String) :
    recGet (recRemove s k) k' = if k' = k then none else recGet s k' := by
  induction s with
  | nil => simp [recRemove, recGet]
  | cons p rest ih =>
    unfold recRemove at ih ⊢
    rw [List.filter_cons]
    by_cases hk : p.1 = k
    · rw [if_neg (by simp [hk])]
      rw [ih]
      by_cases hkk : k' = k
      · simp [hkk]
      · simp [hkk, recGet, show p.1 ≠ k' from fun h => hkk (by rw [← h, hk])]
    · rw [if_pos (by simp [hk])]
      unfold recGet
      by_cases hk' : p.1 = k'
      · simp [hk', show ¬ (k' = k) from fun h => hk (hk'.trans h)]
      · simp only [hk', if_neg]
        exact ih

/-! ## C5 — sign-out always clears both tokens -/

/-- C5: `signOut` always clears both stored tokens (provided the storage
layer's remove operation itself works): whatever the remote sign-out DELETE
does — including rejecting with a network error — the final store holds
neither the access token nor the refresh token. -/
theorem c5_signout_clears_tokens (cfg : Config) (w : World)
    (hrm : w.sb.removeFails = false) :
    recGet ((StackAuthClient.signOut cfg) w).2.store StackTokenStorage.ACCESS_TOKEN_KEY = none ∧
    recGet ((StackAuthClient.signOut cfg) w).2.store StackTokenStorage.REFRESH_TOKEN_KEY = none := by
  unfold StackAuthClient.signOut
  simp only [M.bind_def, M.pure_def]
  unfold M.bind M.tryCatch M.pure
  cases hm : StackAuthClient.makeRequest cfg "auth/sessions/current" { method := "DELETE" } w with
  | mk res w' =>
    have hsb : w'.sb = w.sb := by
      have h := makeRequest_sb cfg "auth/sessions/current" { method := "DELETE" } w
      rw [hm] at h
      exact h
    simp only [hm]
    cases res with
    | ok a =>
      simp only [StackTokenStorage.clearTokens_run, hsb, hrm]
      simp [recGet_recRemove, StackTokenStorage.ACCESS_TOKEN_KEY,
        StackTokenStorage.REFRESH_TOKEN_KEY]
    | error msg =>
      simp only [StackTokenStorage.clearTokens_run, hsb, hrm]
      simp [recGet_recRemove, StackTokenStorage.ACCESS_TOKEN_KEY,
        StackTokenStorage.REFRESH_TOKEN_KEY]

/-- C5 witness: in a world with both tokens stored whose sign-out DELETE
network-errors, both tokens are cleared. -/
theorem c5_signout_clears_tokens_witness :
    recGet ((StackAuthClient.signOut cfg0) wSignOut).2.store
      StackTokenStorage.ACCESS_TOKEN_KEY = none ∧
    recGet ((StackAuthClient.signOut cfg0) wSignOut).2.store
      StackTokenStorage.REFRESH_TOKEN_KEY = none :=
  c5_signout_clears_tokens cfg0 wSignOut rfl

/-! ## C4 — refresh failure leaves stored tokens unchanged -/

/-- C4: whenever a refresh attempt fails — it resolves `false` because no
refresh token is stored, the refresh response is non-2xx, or the network call
rejects — the entire storage contents (hence both stored tokens) are left
unchanged; and in every case the stored refresh token is never rewritten, so a
new access token is persisted only by a successful refresh response. -/
theorem c4_refresh_failure_keeps_tokens (cfg : Config) (w : World) :
    ((StackAuthClient.refreshAccessToken cfg w).1 = Except.ok false →
      (StackAuthClient.refreshAccessToken cfg w).2.store = w.store) ∧
    recGet (StackAuthClient.refreshAccessToken cfg w).2.store
        StackTokenStorage.REFRESH_TOKEN_KEY =
      recGet w.store StackTokenStorage.REFRESH_TOKEN_KEY := by
  rw [refreshAccessToken_run]
  by_cases htok : jsTruthy (if StackTokenStorage.REFRESH_TOKEN_KEY ∈ w.sb.getFailKeys then none
      else recGet w.store StackTokenStorage.REFRESH_TOKEN_KEY)
  · cases hnet : w.net with
    | nil => simp [htok, hnet]
    | cons e rest =>
      cases houtc : e.outcome with
      | netError => simp [htok, hnet, houtc]
      | success r =>
        by_cases hok : r.isOk
        · cases hat : r.body.access_token with
          | none => simp [htok, hnet, houtc, hok, hat]
          | some t =>
            by_cases hset : StackTokenStorage.ACCESS_TOKEN_KEY ∈ w.sb.setFailKeys
            · simp [htok, hnet, houtc, hok, hat, hset]
            · simp only [htok, hnet, houtc, hok, hat, hset]
              constructor
              · intro h
                simp at h
              · simp [recGet_recSet_ne _ _ _ _ (by decide :
                  StackTokenStorage.REFRESH_TOKEN_KEY ≠ StackTokenStorage.ACCESS_TOKEN_KEY)]
        · simp [htok, hnet, houtc, hok]
  · simp [htok]

/-- C4 witness: at a concrete world with a stored refresh token whose refresh
call network-errors, the refresh resolves `false` and the store is unchanged. -/
theorem c4_refresh_failure_keeps_tokens_witness :
    (StackAuthClient.refreshAccessToken cfg0
      ⟨[("@stack_auth_refresh_token", "rt-1")], [⟨FetchOutcome.netError, 5⟩], [], [], 0,
       StorageBehavior.reliable⟩).2.store = [("@stack_auth_refresh_token", "rt-1")] :=
  (c4_refresh_failure_keeps_tokens cfg0
    ⟨[("@stack_auth_refresh_token", "rt-1")], [⟨FetchOutcome.netError, 5⟩], [], [], 0,
     StorageBehavior.reliable⟩).1 rfl

/-! ## C1 — OAuth callback with mismatched state -/

/-- C1 (corrected): for every call of `handleOAuthCallback(code, state)` in
which the received state does not exactly equal the persisted state (and the
read of the persisted state does not itself fail), the call fails with the
"Invalid state parameter" error and leaves the world completely untouched: in
particular it never issues the token-exchange network call, but — contrary to
the original claim — it does NOT discard the persisted code_verifier and
state, which remain stored. -/
theorem c1_oauth_callback_state_mismatch (cfg : Config) (code state : String) (w : World)
    (hget : "@oauth_state" ∉ w.sb.getFailKeys)
    (hne : recGet w.store "@oauth_state" ≠ some state) :
    StackAuthClient.handleOAuthCallback cfg code state w =
      (Except.ok ⟨false, some "Invalid state parameter"⟩, w) := by
  unfold StackAuthClient.handleOAuthCallback
  simp only [M.bind_def, M.pure_def]
  unfold M.tryCatch M.bind AsyncStorage.getItem M.pure
  simp [hget, hne]

/-- C1 counterexample to the claim as stated: with persisted state "A" and
persisted verifier "V", a callback carrying state "B" fails with the invalid
state error, yet the persisted code_verifier and state are still stored
afterwards (they are not discarded), and no network request was issued. -/
theorem c1_counterexample :
    StackAuthClient.handleOAuthCallback cfg0 "code-1" "B" wMismatch =
      (Except.ok ⟨false, some "Invalid state parameter"⟩, wMismatch) ∧
    recGet (StackAuthClient.handleOAuthCallback cfg0 "code-1" "B" wMismatch).2.store
      "@oauth_code_verifier" = some "V" ∧
    recGet (StackAuthClient.handleOAuthCallback cfg0 "code-1" "B" wMismatch).2.store
      "@oauth_state" = some "A" ∧
    (StackAuthClient.handleOAuthCallback cfg0 "code-1" "B" wMismatch).2.log = [] :=
  ⟨rfl, rfl, rfl, rfl⟩

/-- C1 witness: the hypotheses of `c1_oauth_callback_state_mismatch` hold at a
concrete input and the theorem applies there. -/
theorem c1_oauth_callback_state_mismatch_witness :
    ("@oauth_state" ∉ wMismatch.sb.getFailKeys) ∧
    (recGet wMismatch.store "@oauth_state" ≠ some "B") ∧
    StackAuthClient.handleOAuthCallback cfg0 "code-1" "B" wMismatch =
      (Except.ok ⟨false, some "Invalid state parameter"⟩, wMismatch) :=
  ⟨by decide, by decide,
   c1_oauth_callback_state_mismatch cfg0 "code-1" "B" wMismatch (by decide) (by decide)⟩

/-! ## C8 — the token store swallows storage-layer failures -/

/-- C8: no token-store operation ever rejects: the getters resolve (to `null`
exactly as if no token were stored whenever the underlying read fails), and
the setters and `clearTokens` resolve even when the underlying storage
operation fails. -/
theorem c8_token_store_swallows_failures (w : World) (t : String) :
    (∀ msg, (StackTokenStorage.getAccessToken w).1 ≠ Except.error msg) ∧
    (∀ msg, (StackTokenStorage.getRefreshToken w).1 ≠ Except.error msg) ∧
    (∀ msg, (StackTokenStorage.setAccessToken (some t) w).1 ≠ Except.error msg) ∧
    (∀ msg, (StackTokenStorage.setRefreshToken (some t) w).1 ≠ Except.error msg) ∧
    (∀ msg, (StackTokenStorage.clearTokens w).1 ≠ Except.error msg) ∧
    (StackTokenStorage.ACCESS_TOKEN_KEY ∈ w.sb.getFailKeys →
      StackTokenStorage.getAccessToken w = (Except.ok none, w)) ∧
    (StackTokenStorage.REFRESH_TOKEN_KEY ∈ w.sb.getFailKeys →
      StackTokenStorage.getRefreshToken w = (Except.ok none, w)) := by
  refine ⟨?_, ?_, ?_, ?_, ?_, ?_, ?_⟩
  · intro msg
    rw [StackTokenStorage.getAccessToken_run]
    simp
  · intro msg
    rw [StackTokenStorage.getRefreshToken_run]
    simp
  · intro msg
    rw [StackTokenStorage.setAccessToken_run]
    simp
  · intro msg
    rw [StackTokenStorage.setRefreshToken_run]
    simp
  · intro msg
    rw [StackTokenStorage.clearTokens_run]
    simp
  · intro h
    rw [StackTokenStorage.getAccessToken_run]
    simp [h]
  · intro h
    rw [StackTokenStorage.getRefreshToken_run]
    simp [h]

/-- C8 witness: on a world whose storage layer fails on every operation, the
getters degrade to `null` (identical to no token stored) and a setter still
resolves. -/
theorem c8_token_store_swallows_failures_witness :
    StackTokenStorage.getAccessToken wStorageFail = (Except.ok none, wStorageFail) ∧
    StackTokenStorage.getRefreshToken wStorageFail = (Except.ok none, wStorageFail) ∧
    (StackTokenStorage.setAccessToken (some "x") wStorageFail).1 ≠
      Except.error "storage failure" :=
  ⟨(c8_token_store_swallows_failures wStorageFail "x").2.2.2.2.2.1 (by decide),
   (c8_token_store_swallows_failures wStorageFail "x").2.2.2.2.2.2 (by decide),
   (c8_token_store_swallows_failures wStorageFail "x").2.2.1 "storage failure"⟩

/-! ## C2 — 401 handling: one refresh attempt, at most one retry -/

theorem jsTruthy_some_of_ne (s : String) (h : s ≠ "") : jsTruthy (some s) = true := by
  simp [jsTruthy, h]

/-- C2: for a pipeline request answered with a 401 (with a reliable storage
layer): if no refresh token is stored the original 401 response is returned
unchanged after exactly one issued request; otherwise exactly one refresh
attempt is issued against the fixed refresh endpoint carrying the stored
refresh token in its dedicated header, and (a) if the refresh network-errors
or is non-2xx, the original 401 response is returned unchanged with no retry,
while (b) if the refresh succeeds with a new access token, that token is
persisted and the original call is retried exactly once with the new token in
the access-token header — the program then ends with that single retry fetch,
whatever its outcome, so there is never more than one retry. -/
theorem c2_refresh_retry_policy (cfg : Config) (e : String) (o : RequestInit) (w : World)
    (r1 : Response) (d1 : Nat) (rest : List NetEvent)
    (hsb : w.sb = StorageBehavior.reliable)
    (hnet : w.net = ⟨FetchOutcome.success r1, d1⟩ :: rest)
    (h401 : r1.status = 401) :
    (jsTruthy (recGet w.store StackTokenStorage.REFRESH_TOKEN_KEY) = false →
      StackAuthClient.makeRequest cfg e o w =
        (Except.ok r1, afterFetch w (firstRequest cfg e o w) rest d1)) ∧
    (∀ rt, recGet w.store StackTokenStorage.REFRESH_TOKEN_KEY = some rt → rt ≠ "" →
      recGet (StackAuthClient.refreshRequest cfg rt).headers "X-Stack-Refresh-Token" = some rt ∧
      (∀ d2 rest2, rest = ⟨FetchOutcome.netError, d2⟩ :: rest2 →
        StackAuthClient.makeRequest cfg e o w =
          (Except.ok r1,
           afterFetch (afterFetch w (firstRequest cfg e o w) rest d1)
             (StackAuthClient.refreshRequest cfg rt) rest2 d2)) ∧
      (∀ r2 d2 rest2, rest = ⟨FetchOutcome.success r2, d2⟩ :: rest2 → r2.isOk = false →
        StackAuthClient.makeRequest cfg e o w =
          (Except.ok r1,
           afterFetch (afterFetch w (firstRequest cfg e o w) rest d1)
             (StackAuthClient.refreshRequest cfg rt) rest2 d2)) ∧
      (∀ r2 d2 rest2 tok, rest = ⟨FetchOutcome.success r2, d2⟩ :: rest2 → r2.isOk = true →
        r2.body.access_token = some tok → tok ≠ "" →
        recGet (retryRequest cfg e o (storedAccessToken w) tok).headers
          "X-Stack-Access-Token" = some tok ∧
        StackAuthClient.makeRequest cfg e o w =
          fetch (retryRequest cfg e o (storedAccessToken w) tok)
            { afterFetch (afterFetch w (firstRequest cfg e o w) rest d1)
                (StackAuthClient.refreshRequest cfg rt) rest2 d2 with
              store := recSet w.store StackTokenStorage.ACCESS_TOKEN_KEY tok })) := by
  constructor
  · intro hno
    have href : StackAuthClient.refreshAccessToken cfg
        (afterFetch w (firstRequest cfg e o w) rest d1) =
        (Except.ok false, afterFetch w (firstRequest cfg e o w) rest d1) := by
      rw [refreshAccessToken_run]
      simp [afterFetch, hsb, StorageBehavior.reliable, hno]
    rw [makeRequest_run_401 cfg e o w r1 d1 rest false _ hnet h401 href]
    simp
  · intro rt hrt hrtne
    refine ⟨rfl, ?_, ?_, ?_⟩
    · intro d2 rest2 hrest
      have href : StackAuthClient.refreshAccessToken cfg
          (afterFetch w (firstRequest cfg e o w) rest d1) =
          (Except.ok false,
           afterFetch (afterFetch w (firstRequest cfg e o w) rest d1)
             (StackAuthClient.refreshRequest cfg rt) rest2 d2) := by
        rw [refreshAccessToken_run]
        simp [afterFetch, hsb, StorageBehavior.reliable, hrt,
          jsTruthy_some_of_ne rt hrtne, hrest]
      rw [makeRequest_run_401 cfg e o w r1 d1 rest false _ hnet h401 href]
      simp
    · intro r2 d2 rest2 hrest hok
      have href : StackAuthClient.refreshAccessToken cfg
          (afterFetch w (firstRequest cfg e o w) rest d1) =
          (Except.ok false,
           afterFetch (afterFetch w (firstRequest cfg e o w) rest d1)
             (StackAuthClient.refreshRequest cfg rt) rest2 d2) := by
        rw [refreshAccessToken_run]
        simp [afterFetch, hsb, StorageBehavior.reliable, hrt,
          jsTruthy_some_of_ne rt hrtne, hrest, hok]
      rw [makeRequest_run_401 cfg e o w r1 d1 rest false _ hnet h401 href]
      simp
    · intro r2 d2 rest2 tok hrest hok hat htokne
      refine ⟨recGet_recSet_self _ _ _, ?_⟩
      have href : StackAuthClient.refreshAccessToken cfg
          (afterFetch w (firstRequest cfg e o w) rest d1) =
          (Except.ok true,
           { afterFetch (afterFetch w (firstRequest cfg e o w) rest d1)
               (StackAuthClient.refreshRequest cfg rt) rest2 d2 with
             store := recSet w.store StackTokenStorage.ACCESS_TOKEN_KEY tok }) := by
        rw [refreshAccessToken_run]
        simp [afterFetch, hsb, StorageBehavior.reliable, hrt,
          jsTruthy_some_of_ne rt hrtne, hrest, hok, hat]
      rw [makeRequest_run_401 cfg e o w r1 d1 rest true _ hnet h401 href]
      have hsat : storedAccessToken
          { afterFetch (afterFetch w (firstRequest cfg e o w) rest d1)
              (StackAuthClient.refreshRequest cfg rt) rest2 d2 with
            store := recSet w.store StackTokenStorage.ACCESS_TOKEN_KEY tok } = some tok := by
        simp [storedAccessToken, afterFetch, hsb, StorageBehavior.reliable, recGet_recSet_self]
      rw [hsat]
      simp [jsTruthy_some_of_ne tok htokne]

/-- C2 witness: a concrete 401 → successful refresh → retried request run,
ending in exactly the retry fetch with the new token, which succeeds. -/
theorem c2_refresh_retry_policy_witness :
    StackAuthClient.makeRequest cfg0 "users/me" {} wC2 =
      (Except.ok rFinal,
       afterFetch
         { afterFetch (afterFetch wC2 (firstRequest cfg0 "users/me" {} wC2)
             [⟨FetchOutcome.success rRefreshOk, 5⟩, ⟨FetchOutcome.success rFinal, 5⟩] 5)
             (StackAuthClient.refreshRequest cfg0 "rt-1")
             [⟨FetchOutcome.success rFinal, 5⟩] 5 with
           store := recSet wC2.store StackTokenStorage.ACCESS_TOKEN_KEY "new-at" }
         (retryRequest cfg0 "users/me" {} (storedAccessToken wC2) "new-at") [] 5) := by
  have h := ((c2_refresh_retry_policy cfg0 "users/me" {} wC2 r401 5 _ rfl rfl rfl).2
    "rt-1" rfl (by decide)).2.2.2 rRefreshOk 5 [⟨FetchOutcome.success rFinal, 5⟩]
    "new-at" rfl rfl rfl (by decide)
  exact h.2.trans rfl

/-! ## C10 — request URLs are literal base ++ endpoint concatenations -/

/-- C10: the pipeline fetches exactly `baseUrl ++ endpoint` with no separator
inserted or normalized, and the call sites pass endpoints inconsistently:
`signInWithPassword` passes `auth/password/sign-in` (no leading slash) while
`getUserById` passes `/users/` ++ id (leading slash) — so whether a `/`
separates base and path depends on the call site and on whether the
configured base URL ends with `/`. -/
theorem c10_url_literal_concatenation (cfg : Config) :
    (∀ e o w r d rest, w.net = ⟨FetchOutcome.success r, d⟩ :: rest → r.status ≠ 401 →
      ((StackAuthClient.makeRequest cfg e o w).2.log).map Request.url =
        (w.log.map Request.url) ++ [cfg.baseUrl ++ e]) ∧
    (∀ em pw w r d rest, w.net = ⟨FetchOutcome.success r, d⟩ :: rest → r.status ≠ 401 →
      r.isOk = false →
      ((StackAuthClient.signInWithPassword cfg em pw w).2.log).map Request.url =
        (w.log.map Request.url) ++ [cfg.baseUrl ++ "auth/password/sign-in"]) ∧
    (∀ uid w r d rest, w.net = ⟨FetchOutcome.success r, d⟩ :: rest → r.status ≠ 401 →
      r.isOk = false →
      ((StackAuthClient.getUserById cfg uid w).2.log).map Request.url =
        (w.log.map Request.url) ++ [cfg.baseUrl ++ ("/users/" ++ uid)]) := by
  refine ⟨?_, ?_, ?_⟩
  · intro e o w r d rest hnet hst
    rw [makeRequest_run_ok cfg e o w r d rest hnet hst]
    simp [afterFetch, firstRequest]
  · intro em pw w r d rest hnet hst hok
    unfold StackAuthClient.signInWithPassword
    simp only [M.bind_def, M.pure_def]
    unfold M.tryCatch M.bind M.pure
    rw [makeRequest_run_ok cfg "auth/password/sign-in"
      { method := "POST", headers := [],
        body := some (jsonStringify [("email", em), ("password", pw)]) } w r d rest hnet hst]
    simp [hok, afterFetch, firstRequest]
  · intro uid w r d rest hnet hst hok
    unfold StackAuthClient.getUserById
    simp only [M.bind_def, M.pure_def]
    unfold M.tryCatch M.bind M.pure
    rw [makeRequest_run_ok cfg ("/users/" ++ uid) {} w r d rest hnet hst]
    simp [hok, afterFetch, firstRequest]

/-- C10 witness: on the default base URL, `signInWithPassword` fetches a URL
with no slash between host and path, while `getUserById` gets one from its
endpoint argument. -/
theorem c10_url_literal_concatenation_witness :
    ((StackAuthClient.signInWithPassword cfg0 "a@b.c" "pw" wC10).2.log).map Request.url =
      ["https://api.stack-auth.comauth/password/sign-in"] ∧
    ((StackAuthClient.getUserById cfg0 "u1" wC10).2.log).map Request.url =
      ["https://api.stack-auth.com/users/u1"] := by
  have h1 := (c10_url_literal_concatenation cfg0).2.1 "a@b.c" "pw" wC10 r400 1 [] rfl
    (by decide) rfl
  have h2 := (c10_url_literal_concatenation cfg0).2.2 "u1" wC10 r400 1 [] rfl (by decide) rfl
  exact ⟨h1.trans rfl, h2.trans rfl⟩

/-! ## C9 — getCurrentUser returns the mapped user object -/

/-- C9 (corrected): with a (truthy) access token stored, a `getCurrentUser`
call whose `users/me` request succeeds resolves to the mapped object
`{id, email, displayName, profile_image_url}` where `id` is the provider's
`id`, `email` is the provider's `primary_email`, `profile_image_url` is passed
through, and `displayName` is the provider's `display_name` — falling back to
the portion of `primary_email` before `@` when `display_name` is absent OR
EMPTY (the source tests JS truthiness, not only absence). -/
theorem c9_get_current_user_mapping (cfg : Config) (w : World) (r : Response) (d : Nat)
    (rest : List NetEvent)
    (htok : jsTruthy (storedAccessToken w) = true)
    (hnet : w.net = ⟨FetchOutcome.success r, d⟩ :: rest)
    (hok : r.isOk = true) :
    (StackAuthClient.getCurrentUser cfg w).1 =
      Except.ok (some
        ⟨r.body.id, r.body.primary_email, displayNameSpec r.body, r.body.profile_image_url⟩) := by
  have hst : r.status ≠ 401 := by
    intro h
    rw [Response.isOk, h] at hok
    simp at hok
  unfold StackAuthClient.getCurrentUser
  simp only [M.bind_def, M.pure_def]
  unfold M.tryCatch M.bind M.pure
  rw [makeRequest_run_ok cfg "users/me" {} w r d rest hnet hst]
  cases hd : r.body.display_name with
  | none => simp [hok, StackAuthClient.mapUser, displayNameSpec, hd, jsTruthy]
  | some dn =>
    by_cases hdn : dn = ""
    · simp [hok, StackAuthClient.mapUser, displayNameSpec, hd, hdn, jsTruthy]
    · simp [hok, StackAuthClient.mapUser, displayNameSpec, hd, hdn, jsTruthy]

/-- C9 counterexample to the claim as stated: a successful `users/me` response
in which `display_name` is present (the empty string) does not yield
`displayName = display_name`: the code falls back to the email prefix "ada". -/
theorem c9_counterexample :
    (StackAuthClient.getCurrentUser cfg0 wC9).1 =
      Except.ok (some ⟨some "u1", some "ada@example.com", some "ada", none⟩) ∧
    rC9.body.display_name = some "" ∧
    some "ada" ≠ rC9.body.display_name :=
  ⟨rfl, rfl, by decide⟩

/-- C9 witness: the amended mapping theorem applied at the concrete signed-in
world `wC9`. -/
theorem c9_get_current_user_mapping_witness :
    (StackAuthClient.getCurrentUser cfg0 wC9).1 =
      Except.ok (some
        ⟨rC9.body.id, rC9.body.primary_email, displayNameSpec rC9.body,
         rC9.body.profile_image_url⟩) :=
  c9_get_current_user_mapping cfg0 wC9 rC9 1 [] (by decide) rfl rfl

/-! ## C7 — signInWithOAuth persists verifier/state and builds the URL -/

/-- C7: for every provider, `signInWithOAuth` persists the generated
code_verifier and state before returning, and returns success with the
provider's authorization URL built from the query parameters, which include
the client id (`client_id`), the client secret (`client_secret`, the
publishable client key), the redirect URI, the fixed scope `legacy`,
`grant_type=authorization_code`, the code_challenge,
`code_challenge_method=S256`, `response_type=code`, and a `state` parameter
exactly equal to the persisted state. -/
theorem c7_sign_in_with_oauth (cfg : Config) (sha : String → List Nat)
    (provider redirectUri : String) (w : World) (vb sb_ : List Nat)
    (restRand : List (List Nat))
    (hrand : w.rand = vb :: sb_ :: restRand)
    (hv : "@oauth_code_verifier" ∉ w.sb.setFailKeys)
    (hs : "@oauth_state" ∉ w.sb.setFailKeys) :
    StackAuthClient.signInWithOAuth cfg sha provider redirectUri w =
      (Except.ok
        ⟨true,
         some (cfg.baseUrl ++ "/auth/oauth/authorize/" ++ provider ++ "?" ++
           StackAuthClient.urlParamsToString (StackAuthClient.oauthAuthParams cfg redirectUri
             (b64ToUrlSafe (btoaBytes sb_))
             (StackAuthClient.generateCodeChallenge sha (b64ToUrlSafe (btoaBytes vb))))),
         none⟩,
       { w with
         rand := restRand,
         store := recSet (recSet w.store "@oauth_code_verifier" (b64ToUrlSafe (btoaBytes vb)))
                    "@oauth_state" (b64ToUrlSafe (btoaBytes sb_)) }) ∧
    recGet (recSet (recSet w.store "@oauth_code_verifier" (b64ToUrlSafe (btoaBytes vb)))
        "@oauth_state" (b64ToUrlSafe (btoaBytes sb_))) "@oauth_code_verifier" =
      some (b64ToUrlSafe (btoaBytes vb)) ∧
    recGet (recSet (recSet w.store "@oauth_code_verifier" (b64ToUrlSafe (btoaBytes vb)))
        "@oauth_state" (b64ToUrlSafe (btoaBytes sb_))) "@oauth_state" =
      some (b64ToUrlSafe (btoaBytes sb_)) ∧
    (∀ st ch, recGet (StackAuthClient.oauthAuthParams cfg redirectUri st ch) "state" = some st ∧
      recGet (StackAuthClient.oauthAuthParams cfg redirectUri st ch) "code_challenge_method" =
        some "S256" ∧
      recGet (StackAuthClient.oauthAuthParams cfg redirectUri st ch) "client_id" =
        some cfg.projectId ∧
      recGet (StackAuthClient.oauthAuthParams cfg redirectUri st ch) "client_secret" =
        some cfg.publishableClientKey ∧
      recGet (StackAuthClient.oauthAuthParams cfg redirectUri st ch) "redirect_uri" =
        some redirectUri ∧
      recGet (StackAuthClient.oauthAuthParams cfg redirectUri st ch) "scope" = some "legacy" ∧
      recGet (StackAuthClient.oauthAuthParams cfg redirectUri st ch) "grant_type" =
        some "authorization_code" ∧
      recGet (StackAuthClient.oauthAuthParams cfg redirectUri st ch) "code_challenge" =
        some ch ∧
      recGet (StackAuthClient.oauthAuthParams cfg redirectUri st ch) "response_type" =
        some "code") := by
  refine ⟨?_, ?_, recGet_recSet_self _ _ _, ?_⟩
  · unfold StackAuthClient.signInWithOAuth StackAuthClient.generateCodeVerifier
      StackAuthClient.generateState Crypto.getRandomBytes
    simp only [M.bind_def, M.pure_def]
    unfold M.tryCatch M.bind M.pure AsyncStorage.setItem
    simp [hrand, hv, hs]
  · rw [recGet_recSet_ne _ _ _ _ (by decide)]
    exact recGet_recSet_self _ _ _
  · intro st ch
    exact ⟨rfl, rfl, rfl, rfl, rfl, rfl, rfl, rfl, rfl⟩

/-- C7 witness: initiating OAuth for provider "google" at a concrete fresh
world persists the generated verifier and state and returns the authorization
URL whose parameter list carries `code_challenge_method=S256` and the
persisted state. -/
theorem c7_sign_in_with_oauth_witness :
    StackAuthClient.signInWithOAuth cfg0 shaDemo "google" "https://app.example/cb" wC7 =
      (Except.ok
        ⟨true,
         some (cfg0.baseUrl ++ "/auth/oauth/authorize/" ++ "google" ++ "?" ++
           StackAuthClient.urlParamsToString (StackAuthClient.oauthAuthParams cfg0
             "https://app.example/cb" (b64ToUrlSafe (btoaBytes sbDemo))
             (StackAuthClient.generateCodeChallenge shaDemo (b64ToUrlSafe (btoaBytes vbDemo))))),
         none⟩,
       { wC7 with
         rand := [],
         store := recSet (recSet wC7.store "@oauth_code_verifier"
                    (b64ToUrlSafe (btoaBytes vbDemo)))
                    "@oauth_state" (b64ToUrlSafe (btoaBytes sbDemo)) }) ∧
    recGet (recSet (recSet wC7.store "@oauth_code_verifier" (b64ToUrlSafe (btoaBytes vbDemo)))
        "@oauth_state" (b64ToUrlSafe (btoaBytes sbDemo))) "@oauth_state" =
      some (b64ToUrlSafe (btoaBytes sbDemo)) :=
  ⟨(c7_sign_in_with_oauth cfg0 shaDemo "google" "https://app.example/cb" wC7 vbDemo sbDemo []
      rfl (by decide) (by decide)).1,
   (c7_sign_in_with_oauth cfg0 shaDemo "google" "https://app.example/cb" wC7 vbDemo sbDemo []
      rfl (by decide) (by decide)).2.2.1⟩

/-! ## C6 — token exchange bounded by the 30-second race -/

/-- C6: when the token-exchange request inside `handleOAuthCallback` settles
after more than 30000 ms (on the discrete clock driving the
`Promise.race` with the 30-second timer), the call resolves to a failure
result — it does not hang — and the timeout is a hard failure: exactly one
exchange request was issued, no retry follows, and the stored tokens and PKCE
entries are untouched. -/
theorem c6_exchange_timeout (cfg : Config) (code st v : String) (w : World)
    (r : Response) (d : Nat) (rest : List NetEvent)
    (hgs : "@oauth_state" ∉ w.sb.getFailKeys)
    (hgv : "@oauth_code_verifier" ∉ w.sb.getFailKeys)
    (hst : recGet w.store "@oauth_state" = some st)
    (hcv : recGet w.store "@oauth_code_verifier" = some v)
    (hvne : v ≠ "")
    (hnet : w.net = ⟨FetchOutcome.success r, d⟩ :: rest)
    (hs401 : r.status ≠ 401)
    (hd : d > 30000) :
    StackAuthClient.handleOAuthCallback cfg code st w =
      (Except.ok ⟨false, some "OAuth callback handling failed"⟩,
       afterFetch w
         (firstRequest cfg "auth/oauth/token"
           { method := "POST", headers := [],
             body := some (jsonStringify
               [("grant_type", "authorization_code"),
                ("code", code),
                ("code_verifier", v),
                ("client_id", cfg.projectId),
                ("client_secret", cfg.publishableClientKey),
                ("redirect_uri", cfg.oauthRedirectUri)]) } w)
         rest d) := by
  unfold StackAuthClient.handleOAuthCallback
  simp only [M.bind_def, M.pure_def]
  unfold M.tryCatch M.bind M.pure AsyncStorage.getItem raceTimeout
  have hmk := makeRequest_run_ok cfg "auth/oauth/token"
    { method := "POST", headers := [],
      body := some (jsonStringify
        [("grant_type", "authorization_code"),
         ("code", code),
         ("code_verifier", v),
         ("client_id", cfg.projectId),
         ("client_secret", cfg.publishableClientKey),
         ("redirect_uri", cfg.oauthRedirectUri)]) } w r d rest hnet hs401
  simp [hgs, hgv, hst, hcv, jsTruthy, hvne, hmk, afterFetch, firstRequest,
    Nat.add_sub_cancel_left, hd]
/-- C6 witness: with a matching pending transaction and an exchange that takes
30001 ms, the callback resolves to the failure result after exactly the one
exchange request. -/
theorem c6_exchange_timeout_witness :
    StackAuthClient.handleOAuthCallback cfg0 "code-1" "A" wC6 =
      (Except.ok ⟨false, some "OAuth callback handling failed"⟩,
       afterFetch wC6
         (firstRequest cfg0 "auth/oauth/token"
           { method := "POST", headers := [],
             body := some (jsonStringify
               [("grant_type", "authorization_code"),
                ("code", "code-1"),
                ("code_verifier", "V"),
                ("client_id", cfg0.projectId),
                ("client_secret", cfg0.publishableClientKey),
                ("redirect_uri", cfg0.oauthRedirectUri)]) } wC6)
         [] 30001) :=
  c6_exchange_timeout cfg0 "code-1" "A" "V" wC6 rFinal 30001 [] (by decide) (by decide)
    rfl rfl (by decide) rfl (by decide) (by decide)

/-! ## C3 — the code challenge is unpadded URL-safe base64 of the digest -/

theorem b64_char_table : ∀ j : Fin 64,
    (if (if b64Alphabet.getD j.1 'A' = '+' then '-' else b64Alphabet.getD j.1 'A') = '/' then '_'
     else (if b64Alphabet.getD j.1 'A' = '+' then '-' else b64Alphabet.getD j.1 'A')) =
      b64UrlAlphabet.getD j.1 'A' ∧
    (b64UrlAlphabet.getD j.1 'A' != '=') = true := by decide

theorem b64Char_transform (i : Nat) :
    (if (if b64Char i = '+' then '-' else b64Char i) = '/' then '_'
     else (if b64Char i = '+' then '-' else b64Char i)) = b64UrlChar i := by
  have h := b64_char_table ⟨i % 64, Nat.mod_lt i (by norm_num)⟩
  simpa [b64Char, b64UrlChar] using h.1

theorem b64UrlChar_ne_pad (i : Nat) : (b64UrlChar i != '=') = true := by
  have h := b64_char_table ⟨i % 64, Nat.mod_lt i (by norm_num)⟩
  simpa [b64UrlChar] using h.2

/-- Replacing `+` by `-` and `/` by `_` and stripping `=` in a standard base64
encoding yields exactly the unpadded URL-safe base64 encoding. -/
theorem b64_map_strip : ∀ bs : List Nat,
    (((b64Encode bs).map (fun x => if x = '+' then '-' else x)).map
        (fun x => if x = '/' then '_' else x)).filter (fun x => x != '=') =
      b64UrlEncodeNoPad bs
  | [] => by simp [b64Encode, b64UrlEncodeNoPad]
  | [a] => by
    simp only [b64Encode, b64UrlEncodeNoPad, List.map_cons, List.map_nil, List.filter_cons,
      List.filter_nil, b64Char_transform, b64UrlChar_ne_pad]
    simp
  | [a, b] => by
    simp only [b64Encode, b64UrlEncodeNoPad, List.map_cons, List.map_nil, List.filter_cons,
      List.filter_nil, b64Char_transform, b64UrlChar_ne_pad]
    simp
  | a :: b :: c :: rest => by
    have ih := b64_map_strip rest
    simp only [b64Encode, b64UrlEncodeNoPad, List.map_cons, List.filter_cons,
      b64Char_transform, b64UrlChar_ne_pad]
    simp only [List.map_map] at ih
    simp [ih]

/-- C3: the code-challenge derivation is deterministic and, for every
code_verifier string, equals the unpadded URL-safe base64 encoding of the
SHA-256 digest of the verifier: the source's `+`→`-`, `/`→`_`, `=`-strip
transformation of the standard base64 digest output coincides byte-for-byte
with direct URL-safe base64 encoding without padding, for every digest
function `sha`. -/
theorem c3_pkce_challenge_base64url (sha : String → List Nat) (v : String) :
    StackAuthClient.generateCodeChallenge sha v = base64UrlNoPad (sha v) := by
  unfold StackAuthClient.generateCodeChallenge b64ToUrlSafe sRepl sStrip btoaBytes base64UrlNoPad
  exact congrArg String.mk (b64_map_strip (sha v))

end StackAuth
